import Mathlib

/-!
Verification of the GraphQL transport core of `monarchmoney-ts`
(`src/core/transport/graphql.ts`) and of the error-propagation policy of
its domain clients (`src/api/insights/InsightsAPI.ts`,
`src/api/reports/ReportsAPI.ts`).

The embedding models:
* JSON values and `JSON.stringify` (insertion-ordered object
  serialization, as in JavaScript);
* the error taxonomy consumed by the transport (the `errors/index.js`
  module itself is not part of the sources; its classifier functions are
  modelled from the spec and marked as such);
* `GraphQLClient.makeDedupeKey`, the request body, a single network
  `attempt`, `GraphQLClient.retry`, the catch-normalization block and
  `GraphQLClient.performRequest`;
* the dedupe map (`activeRequests`) as a step relation at the
  granularity of the JavaScript event loop: the synchronous prologue of
  `execute` (key lookup, starting `performRequest`, registering the
  promise) is one atomic step, and the settlement of a request
  (including its `finally` that deletes the map entry) is another;
* the pacing gate (`lastRequestTime` / `minIntervalMs`) as a discrete
  timed model where `Date.now()` is a logical clock.
-/

namespace Monarch

/-- JSON values as passed in `variables : Record<string, unknown>`.
Objects keep their fields in insertion order, as JavaScript objects do. -/
inductive JVal where
  | jnull
  | jbool (b : Bool)
  | jnum (n : Int)
  | jstr (s : String)
  | jarr (xs : List JVal)
  | jobj (fields : List (String × JVal))

/-- Escaping of one character inside a JSON string literal
(the cases `JSON.stringify` produces for ordinary text). -/
def escapeChar (c : Char) : String :=
  if c = '"' then "\\\""
  else if c = '\\' then "\\\\"
  else if c = '\n' then "\\n"
  else if c = '\r' then "\\r"
  else if c = '\t' then "\\t"
  else String.singleton c

/-- JSON string literal encoding: double quotes around the escaped text. -/
def jstrEncode (s : String) : String :=
  "\"" ++ String.join (s.data.map escapeChar) ++ "\""

mutual

/-- `JSON.stringify` on a JSON value. Object fields are serialized in
their own (insertion) order — JavaScript's `JSON.stringify` performs no
key sorting or other canonicalization. -/
def JVal.stringify : JVal → String
  | .jnull => "null"
  | .jbool true => "true"
  | .jbool false => "false"
  | .jnum n => toString n
  | .jstr s => jstrEncode s
  | .jarr xs => "[" ++ stringifyElems xs ++ "]"
  | .jobj fs => "\x7b" ++ stringifyFields fs ++ "\x7d"

/-- Comma-separated serialization of array elements. -/
def stringifyElems : List JVal → String
  | [] => ""
  | [x] => JVal.stringify x
  | x :: y :: rest => JVal.stringify x ++ "," ++ stringifyElems (y :: rest)

/-- Comma-separated serialization of object fields, in list order. -/
def stringifyFields : List (String × JVal) → String
  | [] => ""
  | [(k, v)] => jstrEncode k ++ ":" ++ JVal.stringify v
  | (k, v) :: f :: rest =>
      jstrEncode k ++ ":" ++ JVal.stringify v ++ "," ++ stringifyFields (f :: rest)

end

/-- The `variables` argument of `execute`: either omitted (`undefined`)
or an object given as an insertion-ordered field list. -/
abbrev Variables := Option (List (String × JVal))

/-- `GraphQLClient.makeDedupeKey`:
`const v = variables ? JSON.stringify(variables) : ''; return query + '::' + v`.
An object is truthy in JavaScript even when empty, so `some []` serializes
to the text for the empty object while `none` yields the empty string. -/
def makeDedupeKey (query : String) (vars : Variables) : String :=
  let v := match vars with
    | some vs => JVal.stringify (.jobj vs)
    | none => ""
  query ++ "::" ++ v

/-- The serialization of the variables used inside `makeDedupeKey`. -/
def serializeVars (vars : Variables) : String :=
  match vars with
  | some vs => JVal.stringify (.jobj vs)
  | none => ""

/-- The POST body built in `performRequest`:
`JSON.stringify({ query, variables: variables ?? {}, operationName: null })`. -/
def buildBody (query : String) (vars : Variables) : String :=
  JVal.stringify (.jobj
    [("query", .jstr query),
     ("variables", .jobj (vars.getD [])),
     ("operationName", .jnull)])

/-- Modelled from the spec: the constructor (JavaScript class) of a
classified error from `errors/index.js`, a module whose source is not
included; the transport imports `AuthError`, `MonarchError`,
`NetworkError` and `RateLimitError` from it and also constructs a plain
base `MonarchError`. `base` stands for the base class itself; the other
tags stand for its subclasses named in the taxonomy. -/
inductive ErrCtor where
  | base
  | auth
  | validation
  | network
  | rateLimit
  | dependencyDown
  | api
  | emptyResponse
deriving DecidableEq, Repr

/-- Modelled from the spec: the `causeCategory` discriminator carried by
every classified error, used by the retry loop to decide retryability. -/
inductive CauseCategory where
  | auth
  | validation
  | network
  | rate_limit
  | dependency_down
  | api
  | unknown
deriving DecidableEq, Repr

/-- A classified error (an instance of `MonarchError` or a subclass):
which class constructed it, its `causeCategory`, and its message. -/
structure MErr where
  ctor : ErrCtor
  causeCategory : CauseCategory
  message : String
deriving DecidableEq, Repr

/-- Modelled from the spec: the `AuthError` constructor from
`errors/index.js` (module absent from the sources). -/
def mkAuthError (msg : String) : MErr := ⟨.auth, .auth, msg⟩

/-- Modelled from the spec: the `NetworkError` constructor from
`errors/index.js` (module absent from the sources); the underlying cause
object is not modelled. -/
def mkNetworkError (msg : String) : MErr := ⟨.network, .network, msg⟩

/-- Modelled from the spec: the `RateLimitError` constructor from
`errors/index.js` (module absent from the sources). -/
def mkRateLimitError (msg : String) : MErr := ⟨.rateLimit, .rate_limit, msg⟩

/-- The plain base-class error the transport constructs itself for an
empty payload: `new MonarchError({ message: 'Empty GraphQL response',
cause: 'unknown' })` (from `src/core/transport/graphql.ts`). -/
def emptyResponseMonarchError : MErr :=
  ⟨.base, .unknown, "Empty GraphQL response"⟩

/-- An exception value crossing the transport's catch block: a
classified `MonarchError`, a `node-fetch` `FetchError` (with its `type`
tag), or any other raw JavaScript exception. -/
inductive JsError where
  | monarch (e : MErr)
  | fetchErr (ty : String) (msg : String)
  | other (msg : String)
deriving DecidableEq, Repr

/-- Modelled from the spec: `normalizeHTTPError` from `errors/index.js`
(module absent from the sources). Per the spec: 401/403 on a non-login
call → Auth error; 429 → RateLimit error (retryable); ≥ 500 →
dependency-down error (retryable); any other 4xx → non-retryable client
error surfacing the raw message. -/
def normalizeHTTPError (status : Nat) (bodyText : String) : MErr :=
  if status = 401 ∨ status = 403 then mkAuthError "Session invalid or expired"
  else if status = 429 then mkRateLimitError "Rate limited"
  else if 500 ≤ status then ⟨.dependencyDown, .dependency_down, bodyText⟩
  else ⟨.api, .api, bodyText⟩

/-- Modelled from the spec: `normalizeGraphQLError` from
`errors/index.js` (module absent from the sources). Per the spec: a
GraphQL-level error message is classified by inspecting it; unless it
matches a known auth or rate-limit pattern it becomes a non-retryable
API error carrying the message verbatim. The concrete patterns are not
in the sources; containment of a representative phrase stands in for
them. -/
def normalizeGraphQLError (msg : String) : MErr :=
  if (msg.splitOn "Not authenticated").length > 1 then mkAuthError msg
  else if (msg.splitOn "Rate limit").length > 1 then mkRateLimitError msg
  else ⟨.api, .api, msg⟩

/-- One decoded HTTP response as the `attempt` closure consumes it:
the status, the raw text used for error bodies, the parsed `data` field
(`none` covers both an absent and a `null` value — both are falsy) and
the parsed `errors` messages (`[]` covers both an absent and an empty
array — both fail the `json.errors?.length` test). -/
structure HttpResp where
  status : Nat
  bodyText : String
  data : Option JVal
  errors : List String

/-- `res.ok` of the fetch API: status in the 200–299 range. -/
def HttpResp.ok (r : HttpResp) : Bool := 200 ≤ r.status && r.status ≤ 299

/-- The outcome of one `fetch` of the request: either a response, or an
exception thrown by the network layer (a `FetchError`, or any other
value — e.g. an abort error or a JSON parse error). -/
abbrev FetchOutcome := Except JsError HttpResp

/-- The `attempt` closure of `performRequest` applied to one fetch
outcome: a thrown fetch exception propagates; a non-ok status throws
`normalizeHTTPError(status, text)`; a non-empty `errors` array throws
`normalizeGraphQLError` of the first message; a falsy `data` throws the
plain base `MonarchError('Empty GraphQL response', cause 'unknown')`;
otherwise the `data` payload is returned. -/
def runAttempt (fetched : FetchOutcome) : Except JsError JVal :=
  match fetched with
  | .error e => .error e
  | .ok res =>
      if !res.ok then .error (.monarch (normalizeHTTPError res.status res.bodyText))
      else match res.errors with
        | m :: _ => .error (.monarch (normalizeGraphQLError m))
        | [] =>
            match res.data with
            | some d => .ok d
            | none => .error (.monarch emptyResponseMonarchError)

/-- The retryability test of `GraphQLClient.retry`:
`err instanceof RateLimitError || (err instanceof MonarchError &&
err.causeCategory === 'dependency_down')`. A non-`MonarchError`
exception satisfies neither test. -/
def isRetryableErr : JsError → Bool
  | .monarch e => e.ctor = ErrCtor.rateLimit || e.causeCategory = CauseCategory.dependency_down
  | .fetchErr _ _ => false
  | .other _ => false

/-- `GraphQLClient.retry`, with the attempt outcomes supplied as a
function of the attempt index. Returns the settled result, the number
of attempts made, and the list of backoff waits (in ms) performed
between consecutive attempts, in order. Mirrors the source loop: on an
error, if `attempt >= retries` or the error is not retryable the error
is thrown; otherwise the loop waits `delay` ms, doubles the delay
(capped at 2000) and retries. -/
def retryGo (f : Nat → Except JsError JVal) (retries attempt delay : Nat) :
    Except JsError JVal × Nat × List Nat :=
  match f attempt with
  | .ok a => (.ok a, attempt + 1, [])
  | .error e =>
      if h : retries ≤ attempt ∨ isRetryableErr e = false then
        (.error e, attempt + 1, [])
      else
        let r := retryGo f retries (attempt + 1) (min (delay * 2) 2000)
        (r.1, r.2.1, delay :: r.2.2)
termination_by retries - attempt
decreasing_by
  push_neg at h
  omega

/-- `this.retry(attempt, opts.retries ?? 2)`: the loop starts at attempt
counter 0 with a 250 ms backoff delay. -/
def retry (f : Nat → Except JsError JVal) (retries : Nat) :
    Except JsError JVal × Nat × List Nat :=
  retryGo f retries 0 250

/-- The catch block of `performRequest`: a `MonarchError` is rethrown
as-is; a `FetchError` of type `aborted` becomes
`NetworkError('Request aborted/timeout')`; any other `FetchError`
becomes a `NetworkError` with its message; anything else is rethrown
raw and unclassified. -/
def normalizeCatch : JsError → JsError
  | .monarch e => .monarch e
  | .fetchErr ty msg =>
      if ty = "aborted" then .monarch (mkNetworkError "Request aborted/timeout")
      else .monarch (mkNetworkError msg)
  | .other msg => .other msg

/-- A session as the transport reads it (`SessionInfo`): the bearer
token and the device identifier. An empty token is falsy in
JavaScript, so it fails the `!session?.token` guard exactly like a
missing one. -/
structure Session where
  token : String
  deviceUuid : String

/-- The auth collaborator's observable state at the time of one
`performRequest`: what `getSession()` returns, what `loadSession()`
resolves to, and what `isSessionExpired()` answers. -/
structure AuthState where
  heldSession : Option Session
  storedSession : Option Session
  sessionExpired : Bool

/-- `this.auth.getSession() ?? (await this.auth.loadSession())`. -/
def resolveSession (a : AuthState) : Option Session :=
  a.heldSession.orElse (fun _ => a.storedSession)

/-- The observable result of one `performRequest` invocation: the
settled value or error, how many network attempts were issued, and the
backoff waits performed between attempts. -/
structure PerformResult where
  result : Except JsError JVal
  networkAttempts : Nat
  waits : List Nat

/-- `GraphQLClient.performRequest`, with the network modelled as a
function from the attempt index to that attempt's fetch outcome.
The credential gate runs first and issues no network call on failure;
then the attempt sequence runs under `retry`, and the catch block
normalizes the settled error. (The pacing suspension affects timing
only and is modelled separately.) -/
def performRequest (a : AuthState) (retries : Nat)
    (oracle : Nat → FetchOutcome) : PerformResult :=
  match resolveSession a with
  | none =>
      { result := .error (.monarch (mkAuthError "No session token available")),
        networkAttempts := 0, waits := [] }
  | some s =>
      if s.token = "" then
        { result := .error (.monarch (mkAuthError "No session token available")),
          networkAttempts := 0, waits := [] }
      else if a.sessionExpired then
        { result := .error (.monarch (mkAuthError "Session expired")),
          networkAttempts := 0, waits := [] }
      else
        let r := retry (fun i => runAttempt (oracle i)) retries
        { result := match r.1 with
            | .ok v => .ok v
            | .error e => .error (normalizeCatch e),
          networkAttempts := r.2.1, waits := r.2.2 }

/-- The shared mutable state of one `GraphQLClient` relevant to
deduplication: the `activeRequests` map from dedupe key to the identity
of the in-flight request (promise), and a counter producing fresh
request identities. -/
structure DedupeState where
  active : List (String × Nat)
  nextId : Nat

/-- What one `execute` call returns in the dedupe model: it either
joined an in-flight request (returned the mapped promise) or started a
fresh `performRequest` with a new identity. -/
inductive ExecOutcome where
  | joined (rid : Nat)
  | started (rid : Nat)
deriving DecidableEq, Repr

/-- The request identity an `execute` caller ends up awaiting. -/
def ExecOutcome.rid : ExecOutcome → Nat
  | .joined r => r
  | .started r => r

/-- The synchronous prologue of `GraphQLClient.execute` as one atomic
step (JavaScript run-to-completion: no other logical call can interleave
between the map lookup, the start of `performRequest`, and the map
registration). With dedupe on, the key is looked up in
`activeRequests`; a hit returns the in-flight promise, a miss starts a
fresh request and registers it under the key. With dedupe off no key is
used and a fresh request always starts, unregistered. -/
def execStep (st : DedupeState) (query : String) (vars : Variables)
    (dedupe : Bool) : ExecOutcome × DedupeState :=
  if dedupe then
    let k := makeDedupeKey query vars
    match st.active.lookup k with
    | some rid => (.joined rid, st)
    | none => (.started st.nextId, ⟨(k, st.nextId) :: st.active, st.nextId + 1⟩)
  else
    (.started st.nextId, ⟨st.active, st.nextId + 1⟩)

/-- The settlement of a request started with dedupe on, including its
`finally` handler: the map entry under the request's key is deleted
unconditionally — the `outcome` argument is ignored, exactly as
`.finally(() => this.activeRequests.delete(dedupeKey))` ignores whether
the promise fulfilled or rejected, and regardless of whether any
network attempt ever ran. -/
def settleStep (st : DedupeState) (key : String)
    (_outcome : Except JsError JVal) : DedupeState :=
  ⟨st.active.eraseP (fun e => e.1 = key), st.nextId⟩

/-- The settled value a caller observes: every caller holding the same
request identity awaits the same promise, hence observes the single
settled outcome assigned to that request. -/
def deliver (outcomeOf : Nat → Except JsError JVal) (o : ExecOutcome) :
    Except JsError JVal :=
  outcomeOf o.rid

/-- The pacing gate of `performRequest` in a discrete timed model:
`Date.now()` is `now`, and if less than `minInterval` ms elapsed since
`lastRequestTime` the call sleeps for the difference; the returned time
is when the network attempt sequence starts. -/
def pacedStart (lastRequestTime now minInterval : Nat) : Nat :=
  if now - lastRequestTime < minInterval then
    now + (minInterval - (now - lastRequestTime))
  else now

/-- A back-to-back sequential run through the pacing gate: each call is
issued the instant the previous one settles (`await` then reissue), the
previous settlement time is the `lastRequestTime` the next call reads
(set by the `finally` of `performRequest`), and each call's attempt
sequence lasts the given duration. Returns the (start, settle) pairs. -/
def seqRun (minInterval : Nat) : Nat → Nat → List Nat → List (Nat × Nat)
  | _, _, [] => []
  | last, now, d :: ds =>
      let start := pacedStart last now minInterval
      let settle := start + d
      (start, settle) :: seqRun minInterval settle settle ds

/-- Two calls whose pacing checks both run while neither has settled
(each reads the same stale `lastRequestTime`, since that field is only
written when a call's attempt sequence completes): the start times each
computes. -/
def twoConcurrentStarts (lastRequestTime now minInterval : Nat) : Nat × Nat :=
  (pacedStart lastRequestTime now minInterval,
   pacedStart lastRequestTime now minInterval)

/-- An advice item as `InsightsAPIImpl.getAdviceItems` returns it
(scalar fields of the `Web_GetAdviceDashboardWidget` payload). -/
structure AdviceItem where
  id : String
  title : String

/-- `InsightsAPIImpl.getAdviceItems` as a function of the transport
outcome for its query (the payload's `adviceItems` field, `none` when
missing): the success path returns `result.adviceItems || []`; the
catch block logs and returns `[]` for every error. -/
def getAdviceItems (res : Except JsError (Option (List AdviceItem))) :
    Except JsError (List AdviceItem) :=
  match res with
  | .ok d => .ok (d.getD [])
  | .error _ => .ok []

/-- A raw credit score snapshot from the
`Web_GetCreditScoreSnapshots` payload. -/
structure CreditScoreSnapshotRaw where
  id : String
  score : Int
  date : String

/-- A reshaped credit score snapshot as `getCreditScoreSnapshots`
returns it. -/
structure CreditScoreSnapshot where
  id : String
  score : Int
  date : String
  provider : String
  change : Option Int

/-- The change-calculation map of `getCreditScoreSnapshots`: each
snapshot gets provider `Spinwheel` and, except for the last element,
`change = score - next.score`. -/
def addChange : List CreditScoreSnapshotRaw → List CreditScoreSnapshot
  | [] => []
  | [s] => [⟨s.id, s.score, s.date, "Spinwheel", none⟩]
  | s :: t :: rest =>
      ⟨s.id, s.score, s.date, "Spinwheel", some (s.score - t.score)⟩ ::
        addChange (t :: rest)

/-- `InsightsAPIImpl.getCreditScoreSnapshots` as a function of the
transport outcome (the payload's `creditScoreSnapshots` field): the
success path reshapes `result.creditScoreSnapshots || []`; the catch
block swallows every error and returns `[]`. -/
def getCreditScoreSnapshots
    (res : Except JsError (Option (List CreditScoreSnapshotRaw))) :
    Except JsError (List CreditScoreSnapshot) :=
  match res with
  | .ok d => .ok (addChange (d.getD []))
  | .error _ => .ok []

/-- `InsightsAPIImpl.getSpinwheelUser` as a function of the transport
outcome (the payload's `spinwheelUser` field): the success path returns
it; the catch block logs and returns `null` for every error. -/
def getSpinwheelUser (res : Except JsError (Option JVal)) :
    Except JsError (Option JVal) :=
  match res with
  | .ok u => .ok u
  | .error _ => .ok none

/-- A report configuration row of the `Web_GetReportConfigurations`
payload, pared to the fields the reshaping reads. -/
structure ReportConfigRaw where
  id : String
  displayName : String
  startDate : Option String
  endDate : Option String
  timeframe : Option String

/-- A reshaped report configuration as `getReportConfigurations`
returns it (filter lists omitted). -/
structure ReportConfiguration where
  id : String
  name : String
  startDate : String
  endDate : String
  preset : Option String

/-- `ReportsAPIImpl.getReportConfigurations` as a function of the
transport outcome: the success path reshapes
`response.reportConfigurations ?? []`; the catch block logs and
rethrows the error — core report data propagates failures. -/
def getReportConfigurations
    (res : Except JsError (Option (List ReportConfigRaw))) :
    Except JsError (List ReportConfiguration) :=
  match res with
  | .ok d =>
      .ok ((d.getD []).map (fun c =>
        ⟨c.id, c.displayName, c.startDate.getD "", c.endDate.getD "",
         c.timeframe⟩))
  | .error e => .error e

/-! Shared helper lemmas. -/

theorem string_append_right_cancel_iff (s a b : String) :
    s ++ a = s ++ b ↔ a = b := by
  constructor
  · intro h
    have h2 := congrArg String.data h
    rw [String.data_append, String.data_append] at h2
    exact String.ext (List.append_cancel_left h2)
  · intro h
    rw [h]

theorem makeDedupeKey_eq (q : String) (v : Variables) :
    makeDedupeKey q v = q ++ "::" ++ serializeVars v := by
  cases v <;> rfl

/-- The backoff delays the retry loop performs starting from delay `d`
when `rem` more retries remain and every attempt keeps failing with a
retryable error. -/
def waitsFrom (d : Nat) : Nat → List Nat
  | 0 => []
  | rem + 1 => d :: waitsFrom (min (d * 2) 2000) rem

theorem retryGo_all_error (f : Nat → Except JsError JVal) (e : JsError)
    (hf : ∀ n, f n = .error e) (he : isRetryableErr e = true) :
    ∀ rem attempt d, retryGo f (attempt + rem) attempt d =
      (.error e, attempt + rem + 1, waitsFrom d rem) := by
  intro rem
  induction rem with
  | zero =>
      intro attempt d
      rw [retryGo]
      simp only [hf attempt]
      rw [dif_pos (Or.inl (by omega))]
      simp [waitsFrom]
  | succ r ih =>
      intro attempt d
      rw [retryGo]
      simp only [hf attempt]
      rw [dif_neg ?hneg]
      case hneg =>
        rintro (hle | hfalse)
        · omega
        · rw [hfalse] at he
          cases he
      have harr : attempt + (r + 1) = attempt + 1 + r := by omega
      rw [harr]
      simp [ih, waitsFrom]

theorem retryGo_error_last (f : Nat → Except JsError JVal) (retries : Nat) :
    ∀ k attempt d e, retries - attempt ≤ k →
      (retryGo f retries attempt d).1 = .error e →
      f ((retryGo f retries attempt d).2.1 - 1) = .error e := by
  intro k
  induction k with
  | zero =>
      intro attempt d e hle h
      rw [retryGo] at h ⊢
      cases hfa : f attempt with
      | ok v => simp only [hfa] at h; cases h
      | error e2 =>
          simp only [hfa] at h ⊢
          rw [dif_pos (Or.inl (by omega))] at h ⊢
          simp at h ⊢
          rw [hfa, h]
  | succ n ih =>
      intro attempt d e hle h
      rw [retryGo] at h ⊢
      cases hfa : f attempt with
      | ok v => simp only [hfa] at h; cases h
      | error e2 =>
          simp only [hfa] at h ⊢
          by_cases hc : retries ≤ attempt ∨ isRetryableErr e2 = false
          · rw [dif_pos hc] at h ⊢
            simp at h ⊢
            rw [hfa, h]
          · rw [dif_neg hc] at h ⊢
            simp only at h ⊢
            push_neg at hc
            exact ih (attempt + 1) (min (d * 2) 2000) e (by omega) h

theorem runAttempt_other (x : FetchOutcome) (msg : String)
    (h : runAttempt x = .error (.other msg)) : x = .error (.other msg) := by
  cases x with
  | error e =>
      rw [runAttempt] at h
      injection h with h2
      rw [h2]
  | ok res =>
      rw [runAttempt] at h
      split at h
      · simp at h
      · split at h
        · simp at h
        · split at h
          · cases h
          · simp at h

theorem performRequest_result_cases (a : AuthState) (retries : Nat)
    (oracle : Nat → FetchOutcome) :
    (∃ m, (performRequest a retries oracle).result = .error (.monarch m) ∧
          (performRequest a retries oracle).networkAttempts = 0) ∨
    ((performRequest a retries oracle).result =
        (match (retry (fun i => runAttempt (oracle i)) retries).1 with
         | .ok v => .ok v
         | .error e0 => .error (normalizeCatch e0)) ∧
     (performRequest a retries oracle).networkAttempts =
        (retry (fun i => runAttempt (oracle i)) retries).2.1) := by
  rw [performRequest]
  cases hs : resolveSession a with
  | none => exact Or.inl ⟨_, rfl, rfl⟩
  | some s =>
      dsimp only
      by_cases ht : s.token = ""
      · rw [if_pos ht]
        exact Or.inl ⟨_, rfl, rfl⟩
      · rw [if_neg ht]
        by_cases he : a.sessionExpired = true
        · rw [if_pos he]
          exact Or.inl ⟨_, rfl, rfl⟩
        · rw [if_neg he]
          exact Or.inr ⟨rfl, rfl⟩

theorem pacedStart_eq_max (last now minI : Nat) (h : last ≤ now) :
    pacedStart last now minI = max now (last + minI) := by
  rw [pacedStart]
  split <;> omega

theorem seqRun_chain (minI : Nat) :
    ∀ ds last now, last ≤ now →
      List.Chain' (fun a b : Nat × Nat => a.1 + minI ≤ b.1)
        (seqRun minI last now ds) := by
  intro ds
  induction ds with
  | nil => intro last now _; simp [seqRun]
  | cons d ds ih =>
      intro last now h
      rw [seqRun, List.chain'_cons']
      refine ⟨?_, ih _ _ (le_refl _)⟩
      intro b hb
      cases ds with
      | nil => simp [seqRun] at hb
      | cons d2 ds2 =>
          rw [seqRun] at hb
          simp only [List.head?_cons, Option.mem_def, Option.some.injEq] at hb
          rw [← hb]
          simp only
          rw [pacedStart_eq_max _ _ _ (le_refl _)]
          omega

theorem min_double_cap (a : Nat) :
    min (min a 2000 * 2) 2000 = min (a * 2) 2000 := by
  omega

theorem waitsFrom_closed (rem : Nat) :
    ∀ base, waitsFrom (min (250 * 2 ^ base) 2000) rem =
      (List.range rem).map (fun k => min (250 * 2 ^ (base + k)) 2000) := by
  induction rem with
  | zero => intro base; simp [waitsFrom]
  | succ r ih =>
      intro base
      rw [waitsFrom, min_double_cap]
      have hpow : 250 * 2 ^ base * 2 = 250 * 2 ^ (base + 1) := by
        rw [pow_succ]; ring
      rw [hpow, ih (base + 1), List.range_succ_eq_map]
      simp only [List.map_cons, List.map_map]
      refine congrArg₂ _ (by norm_num) ?_
      refine List.map_congr_left ?_
      intro k _
      simp only [Function.comp_apply]
      have harr : base + 1 + k = base + (k + 1) := by omega
      rw [harr]

end Monarch

namespace Monarch

/-- C10: for every operation text, `execute()` with variables omitted and
`execute()` with an empty-object variables argument send byte-identical
request bodies (`{query, variables: {}, operationName: null}`), yet
compute different dedupe keys, so two such concurrent calls are never
deduplicated against each other and each performs its own network
request. -/
theorem omitted_vs_empty_variables (q : String) (st : DedupeState)
    (h1 : st.active.lookup (makeDedupeKey q none) = none)
    (h2 : st.active.lookup (makeDedupeKey q (some [])) = none) :
    buildBody q none = buildBody q (some []) ∧
    makeDedupeKey q none ≠ makeDedupeKey q (some []) ∧
    (execStep st q none true).1 = .started st.nextId ∧
    (execStep (execStep st q none true).2 q (some []) true).1 =
      .started (st.nextId + 1) := by
  refine ⟨rfl, ?_, ?_, ?_⟩
  · intro h
    rw [makeDedupeKey_eq, makeDedupeKey_eq] at h
    have h3 := (string_append_right_cancel_iff _ _ _).mp h
    have h4 := congrArg String.length h3
    simp [serializeVars, JVal.stringify, stringifyFields, String.length] at h4
  · simp [execStep, h1]
  · have hne : makeDedupeKey q (some []) ≠ makeDedupeKey q none := by
      intro h
      rw [makeDedupeKey_eq, makeDedupeKey_eq] at h
      have h3 := (string_append_right_cancel_iff _ _ _).mp h
      have h4 := congrArg String.length h3
      simp [serializeVars, JVal.stringify, stringifyFields, String.length] at h4
    simp [execStep, h1, h2, List.lookup, beq_eq_false_iff_ne.mpr hne]

/-- C10 witness: the three conclusions at a concrete empty dedupe state
and operation text. -/
theorem omitted_vs_empty_variables_witness :
    buildBody "Q" none = buildBody "Q" (some []) ∧
    makeDedupeKey "Q" none ≠ makeDedupeKey "Q" (some []) ∧
    (execStep ⟨[], 0⟩ "Q" none true).1 = .started 0 ∧
    (execStep (execStep ⟨[], 0⟩ "Q" none true).2 "Q" (some []) true).1 =
      .started 1 :=
  omitted_vs_empty_variables "Q" ⟨[], 0⟩ rfl rfl

/-- C3: whenever no session is held and loading yields none (or one whose
token is missing/empty), or the held session is expired, `performRequest`
raises an `AuthError` and issues no network attempt at all. -/
theorem credential_gate (a : AuthState) (retries : Nat)
    (oracle : Nat → FetchOutcome)
    (h : (a.heldSession = none ∧ (a.storedSession = none ∨
            ∃ s, a.storedSession = some s ∧ s.token = "")) ∨
         (∃ s, a.heldSession = some s ∧ a.sessionExpired = true)) :
    (performRequest a retries oracle).networkAttempts = 0 ∧
    ((performRequest a retries oracle).result =
        .error (.monarch (mkAuthError "No session token available")) ∨
     (performRequest a retries oracle).result =
        .error (.monarch (mkAuthError "Session expired"))) := by
  rcases h with ⟨hheld, hstored⟩ | ⟨s, hheld, hexp⟩
  · rcases hstored with hnone | ⟨s, hsome, htok⟩
    · simp [performRequest, resolveSession, hheld, hnone, Option.orElse]
    · simp [performRequest, resolveSession, hheld, hsome, htok, Option.orElse]
  · by_cases htok : s.token = ""
    · simp [performRequest, resolveSession, hheld, htok, Option.orElse]
    · simp [performRequest, resolveSession, hheld, htok, hexp, Option.orElse]

/-- C5 counterexample: on HTTP 200 with no errors and an absent/null
`data` field, `performRequest` raises the plain base `MonarchError`
(constructor `base`, causeCategory `unknown`) — a generic failure — and
not an error of a distinct `EmptyResponseError` kind: the constructor of
the raised error differs from the distinct `emptyResponse` tag the claim
requires. -/
theorem empty_response_counterexample :
    (performRequest ⟨some ⟨"tok", "dev"⟩, none, false⟩ 2
        (fun _ => .ok ⟨200, "", none, []⟩)).result =
      .error (.monarch emptyResponseMonarchError) ∧
    emptyResponseMonarchError.ctor = ErrCtor.base ∧
    ErrCtor.base ≠ ErrCtor.emptyResponse := by
  refine ⟨?_, rfl, by decide⟩
  have hatt : runAttempt (.ok ⟨200, "", none, []⟩) =
      .error (.monarch emptyResponseMonarchError) := by
    simp [runAttempt, HttpResp.ok]
  rw [performRequest]
  simp only [resolveSession, Option.orElse]
  rw [if_neg (by decide : ¬((Session.mk "tok" "dev").token = "")), if_neg (by decide)]
  rw [retry, retryGo]
  simp [hatt, isRetryableErr, emptyResponseMonarchError, normalizeCatch]

/-- C5 (amended): on any 2xx response with an empty `errors` array and an
absent/null `data` field, `performRequest` raises, after exactly one
attempt and with no backoff wait, the non-retryable plain base
`MonarchError` with message `Empty GraphQL response` and causeCategory
`unknown` — a generic base-class error, not a distinct
`EmptyResponseError` kind. -/
theorem empty_response_generic_error (a : AuthState) (s : Session)
    (retries : Nat) (oracle : Nat → FetchOutcome) (status : Nat) (txt : String)
    (hs : resolveSession a = some s) (ht : s.token ≠ "")
    (he : a.sessionExpired = false)
    (hok : 200 ≤ status ∧ status ≤ 299)
    (ho : oracle 0 = .ok ⟨status, txt, none, []⟩) :
    performRequest a retries oracle =
      ⟨.error (.monarch emptyResponseMonarchError), 1, []⟩ ∧
    isRetryableErr (.monarch emptyResponseMonarchError) = false := by
  constructor
  · have hatt : runAttempt (oracle 0) = .error (.monarch emptyResponseMonarchError) := by
      rw [ho]
      simp [runAttempt, HttpResp.ok, hok.1, hok.2]
    rw [performRequest, hs]
    simp only [ht, if_false, he, if_false, retry]
    rw [retryGo]
    simp [hatt, isRetryableErr, emptyResponseMonarchError, normalizeCatch]
  · rfl

/-- C5 witness: the amended statement at a concrete client state and a
concrete 200-with-no-data response. -/
theorem empty_response_generic_error_witness :
    performRequest ⟨some ⟨"tok", "dev"⟩, none, false⟩ 2
        (fun _ => .ok ⟨200, "", none, []⟩) =
      ⟨.error (.monarch emptyResponseMonarchError), 1, []⟩ ∧
    isRetryableErr (.monarch emptyResponseMonarchError) = false :=
  empty_response_generic_error ⟨some ⟨"tok", "dev"⟩, none, false⟩ ⟨"tok", "dev"⟩
    2 _ 200 "" rfl (by decide) rfl (by decide) rfl

/-- C9 counterexample: `getAdviceItems` — a domain-client endpoint that
is neither a credit-score nor a spinwheel feature probe — converts a
classified `AuthError` raised by the transport into a successful empty
result instead of propagating it. -/
theorem advice_items_swallow_counterexample :
    getAdviceItems (.error (.monarch (mkAuthError "denied"))) = .ok [] := rfl

/-- C9 (amended): the insights endpoints `getAdviceItems`,
`getCreditScoreSnapshots` and `getSpinwheelUser` map every transport
error — of any kind, not only a well-known unsupported-feature error —
to an empty/default successful result, while the reports core endpoint
`getReportConfigurations` propagates every transport error unchanged. -/
theorem domain_error_policy (e : JsError) :
    getAdviceItems (.error e) = .ok [] ∧
    getCreditScoreSnapshots (.error e) = .ok [] ∧
    getSpinwheelUser (.error e) = .ok none ∧
    getReportConfigurations (.error e) = .error e :=
  ⟨rfl, rfl, rfl, rfl⟩

/-- C4 counterexample: two variables objects that are equal as maps —
one is a permutation of the other, differing only in key order — receive
different dedupe keys, because `JSON.stringify` serializes object fields
in insertion order without canonicalization; such concurrent calls
therefore do not collapse into one network call. -/
theorem dedupe_key_order_counterexample :
    [(("a" : String), JVal.jnum 1), ("b", JVal.jnum 2)].Perm
      [(("b" : String), JVal.jnum 2), ("a", JVal.jnum 1)] ∧
    makeDedupeKey "Q" (some [("a", .jnum 1), ("b", .jnum 2)]) ≠
      makeDedupeKey "Q" (some [("b", .jnum 2), ("a", .jnum 1)]) :=
  ⟨List.Perm.swap _ _ _, by decide⟩

/-- C4 (amended): for a fixed operation text the dedupe key is a
deterministic function of the `JSON.stringify` serialization of the
variables, which preserves each object's own key insertion order: two
calls receive the same key — and hence collapse — exactly when their
variables serialize to the same text, so equal objects in the same key
order always collapse, while objects differing in key order or in
content (and an omitted versus a present variables object) receive
distinct keys and never collapse. -/
theorem dedupe_key_serialization (q : String) (v1 v2 : Variables) :
    makeDedupeKey q v1 = makeDedupeKey q v2 ↔
      serializeVars v1 = serializeVars v2 := by
  rw [makeDedupeKey_eq, makeDedupeKey_eq]
  exact string_append_right_cancel_iff _ _ _

/-- C1: starting from any client state with no in-flight request under
the key of `(q, v)`, a first `execute` call starts exactly one
`performRequest`, and a second identical call issued before the first
settles joins it: the second call starts no request (the state, in
particular the fresh-identity counter, is unchanged), and both callers
await the same request identity, hence observe the same settled
outcome — the same decoded payload or the same error. -/
theorem dedupe_single_flight (st : DedupeState) (q : String) (v : Variables)
    (outcomeOf : Nat → Except JsError JVal)
    (h : st.active.lookup (makeDedupeKey q v) = none) :
    (execStep st q v true).1 = .started st.nextId ∧
    (execStep (execStep st q v true).2 q v true).1 = .joined st.nextId ∧
    (execStep (execStep st q v true).2 q v true).2 = (execStep st q v true).2 ∧
    deliver outcomeOf (execStep st q v true).1 =
      deliver outcomeOf (execStep (execStep st q v true).2 q v true).1 := by
  refine ⟨?_, ?_, ?_, ?_⟩ <;>
    simp [execStep, h, List.lookup, deliver, ExecOutcome.rid]

/-- C1 witness: the single-flight property at a concrete empty state,
operation text and variables. -/
theorem dedupe_single_flight_witness :
    (execStep ⟨[], 7⟩ "Q" (some [("a", .jnum 1)]) true).1 = .started 7 ∧
    (execStep (execStep ⟨[], 7⟩ "Q" (some [("a", .jnum 1)]) true).2 "Q"
        (some [("a", .jnum 1)]) true).1 = .joined 7 ∧
    (execStep (execStep ⟨[], 7⟩ "Q" (some [("a", .jnum 1)]) true).2 "Q"
        (some [("a", .jnum 1)]) true).2 =
      (execStep ⟨[], 7⟩ "Q" (some [("a", .jnum 1)]) true).2 ∧
    deliver (fun _ => .ok .jnull)
        (execStep ⟨[], 7⟩ "Q" (some [("a", .jnum 1)]) true).1 =
      deliver (fun _ => .ok .jnull)
        (execStep (execStep ⟨[], 7⟩ "Q" (some [("a", .jnum 1)]) true).2 "Q"
          (some [("a", .jnum 1)]) true).1 :=
  dedupe_single_flight ⟨[], 7⟩ "Q" (some [("a", .jnum 1)]) (fun _ => .ok .jnull) rfl

/-- C6: starting a call under a fresh key registers the pending entry as
part of the call's atomic prologue (it is observable to every other
logical call from the instant the call is in flight); settling the call
removes the entry for every outcome alike — the `finally` handler
ignores the outcome, so success, classified failure, and failures
raised before any network attempt (such as an `AuthError`) all
unregister it; and an identical call issued after settlement misses the
map and starts a fresh network request with a new identity. -/
theorem dedupe_register_unregister (st : DedupeState) (q : String)
    (v : Variables) (outcome : Except JsError JVal)
    (h : st.active.lookup (makeDedupeKey q v) = none) :
    (execStep st q v true).2.active.lookup (makeDedupeKey q v) =
      some st.nextId ∧
    (settleStep (execStep st q v true).2 (makeDedupeKey q v) outcome).active.lookup
      (makeDedupeKey q v) = none ∧
    (execStep (settleStep (execStep st q v true).2 (makeDedupeKey q v) outcome)
        q v true).1 = .started (st.nextId + 1) := by
  refine ⟨?_, ?_, ?_⟩ <;>
    simp [execStep, settleStep, h, List.lookup, List.eraseP_cons]

/-- C6 witness: register/unregister at a concrete state, with the
settling outcome an `AuthError` raised before any network attempt. -/
theorem dedupe_register_unregister_witness :
    (execStep ⟨[], 0⟩ "Q" none true).2.active.lookup (makeDedupeKey "Q" none) =
      some 0 ∧
    (settleStep (execStep ⟨[], 0⟩ "Q" none true).2 (makeDedupeKey "Q" none)
        (.error (.monarch (mkAuthError "No session token available")))).active.lookup
      (makeDedupeKey "Q" none) = none ∧
    (execStep (settleStep (execStep ⟨[], 0⟩ "Q" none true).2
        (makeDedupeKey "Q" none)
        (.error (.monarch (mkAuthError "No session token available"))))
        "Q" none true).1 = .started 1 :=
  dedupe_register_unregister ⟨[], 0⟩ "Q" none
    (.error (.monarch (mkAuthError "No session token available"))) rfl

/-- C2: the retry loop retries only a `RateLimitError` or an error whose
`causeCategory` is `dependency_down` (the classification of every HTTP
status ≥ 500); when every attempt fails with such a retryable error it
makes exactly `retries + 1` attempts, waiting between consecutive
attempts the backoff `min (250 * 2 ^ k) 2000` ms — 250 ms doubling each
time, capped at 2000 ms — and then raises that error; a non-retryable
error propagates after exactly one attempt with no backoff wait. -/
theorem retry_policy (f : Nat → Except JsError JVal) (e : JsError)
    (retries : Nat) :
    ((∀ n, f n = .error e) → isRetryableErr e = true →
      retry f retries = (.error e, retries + 1,
        (List.range retries).map (fun k => min (250 * 2 ^ k) 2000))) ∧
    (f 0 = .error e → isRetryableErr e = false →
      retry f retries = (.error e, 1, [])) ∧
    (∀ status txt, 500 ≤ status →
      isRetryableErr (.monarch (normalizeHTTPError status txt)) = true) ∧
    (∀ m : MErr, isRetryableErr (.monarch m) = true ↔
      (m.ctor = ErrCtor.rateLimit ∨
        m.causeCategory = CauseCategory.dependency_down)) ∧
    (∀ ty msg, isRetryableErr (.fetchErr ty msg) = false ∧
      isRetryableErr (.other msg) = false) := by
  refine ⟨?_, ?_, ?_, ?_, fun ty msg => ⟨rfl, rfl⟩⟩
  · intro hf he
    have h0 : retryGo f (0 + retries) 0 250 =
        (.error e, 0 + retries + 1, waitsFrom 250 retries) :=
      retryGo_all_error f e hf he retries 0 250
    rw [Nat.zero_add] at h0
    rw [retry, h0]
    have h250 : (250 : Nat) = min (250 * 2 ^ 0) 2000 := by norm_num
    rw [h250, waitsFrom_closed retries 0]
    simp
  · intro hf0 he
    rw [retry, retryGo]
    simp only [hf0]
    rw [dif_pos (Or.inr he)]
  · intro status txt h5
    rw [normalizeHTTPError]
    rw [if_neg (by omega), if_neg (by omega), if_pos h5]
    rfl
  · intro m
    simp [isRetryableErr]

/-- C2 witness: with the default budget of 2 retries, an always rate
limited request settles after exactly 3 attempts with backoff waits of
250 and 500 ms, and a request failing with a non-retryable `AuthError`
settles after exactly one attempt with no wait. -/
theorem retry_policy_witness :
    retry (fun _ => .error (.monarch (mkRateLimitError "r"))) 2 =
      (.error (.monarch (mkRateLimitError "r")), 3,
        (List.range 2).map (fun k => min (250 * 2 ^ k) 2000)) ∧
    retry (fun _ => .error (.monarch (mkAuthError "a"))) 2 =
      (.error (.monarch (mkAuthError "a")), 1, []) ∧
    isRetryableErr (.monarch (normalizeHTTPError 500 "oops")) = true ∧
    (List.range 2).map (fun k => min (250 * 2 ^ k) 2000) = [250, 500] :=
  ⟨(retry_policy _ _ 2).1 (fun _ => rfl) rfl,
   (retry_policy _ _ 2).2.1 rfl rfl,
   (retry_policy (fun _ => .error (.monarch (mkAuthError "a")))
      (.monarch (mkAuthError "a")) 2).2.2.1 500 "oops" (by omega),
   by decide⟩

/-- C7 counterexample: when the network layer throws an exception that is
neither a `MonarchError` nor a `FetchError` (as a JSON parse error or an
abort error surfaced outside the `FetchError` class would be), the final
`throw err` of the catch block rethrows it raw: `performRequest` surfaces
an unclassified exception, not a member of the closed taxonomy. -/
theorem raw_error_counterexample :
    (performRequest ⟨some ⟨"tok", "dev"⟩, none, false⟩ 2
        (fun _ => .error (.other "Unexpected end of JSON input"))).result =
      .error (.other "Unexpected end of JSON input") := by
  rw [performRequest]
  simp only [resolveSession, Option.orElse]
  rw [if_neg (by decide : ¬((Session.mk "tok" "dev").token = "")), if_neg (by decide)]
  rw [retry, retryGo]
  simp [runAttempt, isRetryableErr, normalizeCatch]

/-- C7 (amended): every failure surfaced by `performRequest` is either a
classified `MonarchError` — in particular a `FetchError` of type
`aborted` (a timeout/abort surfaced by the fetch layer) becomes
`NetworkError('Request aborted/timeout')` and every other `FetchError`
becomes a `NetworkError` with its message, and no `FetchError` ever
reaches the caller unwrapped — or it is a raw non-`FetchError`,
non-`MonarchError` exception thrown by the network layer on the final
attempt and rethrown verbatim, unclassified. -/
theorem surfaced_errors_classified (a : AuthState) (retries : Nat)
    (oracle : Nat → FetchOutcome) :
    (∀ msg, normalizeCatch (.fetchErr "aborted" msg) =
      .monarch (mkNetworkError "Request aborted/timeout")) ∧
    (∀ ty msg, ty ≠ "aborted" →
      normalizeCatch (.fetchErr ty msg) = .monarch (mkNetworkError msg)) ∧
    (∀ ty msg, (performRequest a retries oracle).result ≠
      .error (.fetchErr ty msg)) ∧
    (∀ msg, (performRequest a retries oracle).result = .error (.other msg) →
      oracle ((performRequest a retries oracle).networkAttempts - 1) =
        .error (.other msg)) := by
  refine ⟨fun msg => rfl, fun ty msg hty => by simp [normalizeCatch, hty], ?_, ?_⟩
  · intro ty msg
    rcases performRequest_result_cases a retries oracle with ⟨m, hm, _⟩ | ⟨hr, _⟩
    · rw [hm]
      simp
    · rw [hr]
      cases hro : (retry (fun i => runAttempt (oracle i)) retries).1 with
      | ok v => simp
      | error e0 =>
          cases e0 with
          | monarch m => simp [normalizeCatch]
          | fetchErr t2 m2 =>
              by_cases hab : t2 = "aborted" <;> simp [normalizeCatch, hab]
          | other m2 => simp [normalizeCatch]
  · intro msg h
    rcases performRequest_result_cases a retries oracle with ⟨m, hm, hn⟩ | ⟨hr, hn⟩
    · rw [hm] at h
      simp at h
    · rw [hr] at h
      cases hro : (retry (fun i => runAttempt (oracle i)) retries).1 with
      | ok v => rw [hro] at h; cases h
      | error e0 =>
          rw [hro] at h
          cases e0 with
          | monarch m2 => simp [normalizeCatch] at h
          | fetchErr t2 m2 =>
              by_cases hab : t2 = "aborted" <;> simp [normalizeCatch, hab] at h
          | other m2 =>
              simp only [normalizeCatch, Except.error.injEq, JsError.other.injEq] at h
              subst h
              rw [hn]
              rw [retry] at hro
              have hlast := retryGo_error_last (fun i => runAttempt (oracle i))
                retries retries 0 250 (.other m2) (by omega) (by rw [hro])
              rw [retry]
              exact runAttempt_other _ _ hlast

/-- C7 witness: the abort-to-NetworkError wrapping, the general
FetchError wrapping, the absence of unwrapped FetchErrors, and the
raw-rethrow provenance, at a concrete client and oracle. -/
theorem surfaced_errors_classified_witness :
    normalizeCatch (.fetchErr "aborted" "t") =
      .monarch (mkNetworkError "Request aborted/timeout") ∧
    normalizeCatch (.fetchErr "system" "refused") =
      .monarch (mkNetworkError "refused") ∧
    (performRequest ⟨some ⟨"tok", "dev"⟩, none, false⟩ 2
        (fun _ => .error (.other "boom"))).result ≠
      .error (.fetchErr "system" "refused") ∧
    (fun _ : Nat => (.error (.other "boom") : FetchOutcome))
        ((performRequest ⟨some ⟨"tok", "dev"⟩, none, false⟩ 2
          (fun _ => .error (.other "boom"))).networkAttempts - 1) =
      .error (.other "boom") :=
  ⟨(surfaced_errors_classified ⟨some ⟨"tok", "dev"⟩, none, false⟩ 2
      (fun _ => .error (.other "boom"))).1 "t",
   (surfaced_errors_classified ⟨some ⟨"tok", "dev"⟩, none, false⟩ 2
      (fun _ => .error (.other "boom"))).2.1 "system" "refused" (by decide),
   (surfaced_errors_classified ⟨some ⟨"tok", "dev"⟩, none, false⟩ 2
      (fun _ => .error (.other "boom"))).2.2.1 "system" "refused",
   (surfaced_errors_classified ⟨some ⟨"tok", "dev"⟩, none, false⟩ 2
      (fun _ => .error (.other "boom"))).2.2.2 "boom" (by
        rw [performRequest]
        simp only [resolveSession, Option.orElse]
        rw [if_neg (by decide : ¬((Session.mk "tok" "dev").token = "")),
          if_neg (by decide)]
        rw [retry, retryGo]
        simp [runAttempt, isRetryableErr, normalizeCatch])⟩

/-- C8 counterexample: two concurrent calls that both pass the pacing
check before either settles read the same stale last-call timestamp
(the timestamp is only written when an attempt sequence completes), so
both compute the same start instant: their network call starts are 0 ms
apart, violating the claimed global 250 ms minimum interval between the
starts of concurrent calls. -/
theorem pacing_concurrent_counterexample :
    twoConcurrentStarts 0 100000 250 = (100000, 100000) ∧
    (twoConcurrentStarts 0 100000 250).2 -
      (twoConcurrentStarts 0 100000 250).1 < 250 := by
  exact ⟨by decide, by decide⟩

/-- C8 (amended): the pacing gate suspends a call arriving less than
`minInterval` ms after the recorded last-call timestamp exactly until
the interval has elapsed (the attempt sequence starts at
`max now (last + minInterval)`), and back-to-back sequential calls —
each issued when the previous settles, which is also when the shared
timestamp is written — start at least `minInterval` apart pairwise,
hence at least `(N-1) * minInterval` accumulates across N such calls;
the bound does not extend to concurrent calls, which can observe a
stale timestamp. -/
theorem pacing_sequential_bound (minI last now l n : Nat) (ds : List Nat)
    (hln : l ≤ n) (h : last ≤ now) :
    pacedStart l n minI = max n (l + minI) ∧
    List.Chain' (fun a b : Nat × Nat => a.1 + minI ≤ b.1)
      (seqRun minI last now ds) :=
  ⟨pacedStart_eq_max l n minI hln, seqRun_chain minI ds last now h⟩

/-- C8 witness: the pacing-gate characterization and the sequential
lower bound at concrete times and durations. -/
theorem pacing_sequential_bound_witness :
    pacedStart 900 1000 250 = max 1000 (900 + 250) ∧
    List.Chain' (fun a b : Nat × Nat => a.1 + 250 ≤ b.1)
      (seqRun 250 0 1000 [100, 40, 0]) :=
  pacing_sequential_bound 250 0 1000 900 1000 [100, 40, 0] (by omega) (by omega)

/-- C3 witness: a client with no held session and an empty session store
makes zero network attempts and fails with an `AuthError`. -/
theorem credential_gate_witness :
    (performRequest ⟨none, none, false⟩ 2
        (fun _ => .error (.other "unreachable"))).networkAttempts = 0 ∧
    ((performRequest ⟨none, none, false⟩ 2
        (fun _ => .error (.other "unreachable"))).result =
        .error (.monarch (mkAuthError "No session token available")) ∨
     (performRequest ⟨none, none, false⟩ 2
        (fun _ => .error (.other "unreachable"))).result =
        .error (.monarch (mkAuthError "Session expired"))) :=
  credential_gate ⟨none, none, false⟩ 2 _ (Or.inl ⟨rfl, Or.inl rfl⟩)

end Monarch
